import Mathlib

/-!
Shallow embedding of `verify_blueprint.py`, a script that cross-references a
hardcoded `git diff --numstat` change list against a hardcoded path → category
mapping, aggregates change volume per category, and reports files missing from
the mapping.

Data model: a change record is a triple `(path, additions, deletions)`; the
category mapping is an insertion-ordered association list (modelling a Python
`dict`); category buckets are an insertion-ordered association list from
category name to a `CatData` record, mirroring the `categories` dict built by
`calculate_category_changes`.  Python's `sorted(..., key=k, reverse=True)` is a
stable sort; it is modelled by `List.insertionSort` with the non-strict
relation `keyGE k`, which is sorted and stable for equal keys (proved below).
-/

/-- A change record `(path, additions, deletions)` from `git diff --numstat`. -/
abbrev ChangeRecord := String × Nat × Nat

/-- The raw change list (`GIT_DIFF_DATA` in the script). -/
abbrev ChangeSet := List ChangeRecord

/-- The path → category mapping (`EXPECTED_CATEGORIES` in the script),
modelled as an insertion-ordered association list with unique keys. -/
abbrev CategoryIndex := List (String × String)

/-- The hardcoded `git diff --numstat` data of the script. -/
def GIT_DIFF_DATA : ChangeSet := [
  (".agent/rules/core-code-quality-checks.md", 11, 0),
  (".deadcodeignore", 10, 0),
  ("blueprint.json", 382, 0),
  ("commit.msg", 10, 0),
  ("docs/architecture.md", 43, 0),
  ("docs/design/shooter_e2e_harness_design.md", 0, 815),
  ("docs/reference/bt-blackboard-usage.md", 794, 0),
  ("docs/reference/pabt.md", 779, 0),
  ("docs/reviews/001-pabt-module.md", 221, 0),
  ("docs/reviews/002-pabt-module.md", 93, 0),
  ("docs/reviews/003-bubbletea.md", 161, 0),
  ("docs/reviews/004-mouseharness.md", 140, 0),
  ("docs/reviews/005-pickandplace.md", 153, 0),
  ("docs/reviews/006-shooter.md", 146, 0),
  ("docs/reviews/011-scripting.md", 451, 0),
  ("docs/reviews/013-documentation.md", 272, 0),
  ("docs/reviews/015-config.md", 113, 0),
  ("docs/reviews/021-scripting-engine-exhaustive.md", 459, 0),
  ("docs/reviews/022-exhaustive-review-session.md", 230, 0),
  ("docs/reviews/README.md", 21, 0),
  ("docs/todo.md", 2, 1),
  ("docs/visuals/gifs/script-example-bt-shooter.tape", 67, 0),
  ("docs/visuals/gifs/script-example-pick-and-place.tape", 33, 0),
  ("example.config.mk", 16, 3),
  ("go.mod", 20, 18),
  ("go.sum", 40, 33),
  ("internal/builtin/bt/adapter_test.go", 8, 2),
  ("internal/builtin/bt/blackboard.go", 4, 0),
  ("internal/builtin/bt/bridge.go", 22, 5),
  ("internal/builtin/bt/doc.go", 0, 7),
  ("internal/builtin/bt/failure_mode_test.go", 0, 73),
  ("internal/builtin/bubbletea/bubbletea.go", 83, 14),
  ("internal/builtin/bubbletea/core_logic_test.go", 141, 0),
  ("internal/builtin/bubbletea/js_model_logic_test.go", 149, 0),
  ("internal/builtin/bubbletea/message_conversion_test.go", 364, 0),
  ("internal/builtin/bubbletea/parsekey_test.go", 4, 3),
  ("internal/builtin/bubbletea/render_throttle_test.go", 235, 328),
  ("internal/builtin/bubbletea/run_program_test.go", 322, 0),
  ("internal/builtin/register.go", 5, 3),
  ("internal/builtin/pabt/actions.go", 112, 0),
  ("internal/builtin/pabt/benchmark_test.go", 200, 0),
  ("internal/builtin/pabt/doc.go", 192, 0),
  ("internal/builtin/pabt/empty_actions_test.go", 139, 0),
  ("internal/builtin/pabt/evaluation.go", 354, 0),
  ("internal/builtin/pabt/evaluation_test.go", 439, 0),
  ("internal/builtin/pabt/expr_integration_test.go", 284, 0),
  ("internal/builtin/pabt/graph_test.go", 509, 0),
  ("internal/builtin/pabt/graphjsimpl_test.go", 480, 0),
  ("internal/builtin/pabt/integration_test.go", 239, 0),
  ("internal/builtin/pabt/memory_test.go", 204, 0),
  ("internal/builtin/pabt/pabt_test.go", 242, 0),
  ("internal/builtin/pabt/require.go", 503, 0),
  ("internal/builtin/pabt/require_test.go", 539, 0),
  ("internal/builtin/pabt/simple.go", 158, 0),
  ("internal/builtin/pabt/simple_test.go", 284, 0),
  ("internal/builtin/pabt/state.go", 365, 0),
  ("internal/builtin/pabt/state_test.go", 346, 0),
  ("internal/builtin/pabt/test_helpers_test.go", 48, 0),
  ("internal/command/pick_and_place_error_recovery_test.go", 1007, 0),
  ("internal/command/pick_and_place_harness_test.go", 1615, 0),
  ("internal/command/pick_and_place_mouse_test.go", 98, 0),
  ("internal/command/pick_and_place_unix_test.go", 2578, 0),
  ("internal/command/prompt_flow_editor_test.go", 9, 1),
  ("internal/command/scripting_command.go", 41, 2),
  ("internal/command/scripting_command_test.go", 38, 0),
  ("internal/command/shooter_game_test.go", 225, 304),
  ("internal/command/shooter_game_unix_test.go", 10, 2),
  ("internal/example/pickandplace/bubbletea_test.go", 12, 0),
  ("internal/example/pickandplace/pick_place_integration_test.go", 371, 0),
  ("internal/example/pickandplace/pick_place_manual_mode_comprehensive_test.go", 1135, 0),
  ("internal/example/pickandplace/pick_place_simulation_consistency_test.go", 895, 0),
  ("internal/mouseharness/console.go", 97, 0),
  ("internal/mouseharness/console_test.go", 293, 0),
  ("internal/mouseharness/element.go", 163, 0),
  ("internal/mouseharness/integration_test.go", 335, 0),
  ("internal/mouseharness/internal/dummy/main.go", 87, 0),
  ("internal/mouseharness/main_test.go", 73, 0),
  ("internal/mouseharness/mouse.go", 88, 0),
  ("internal/mouseharness/mouse_test.go", 122, 0),
  ("internal/mouseharness/options.go", 69, 0),
  ("internal/mouseharness/options_test.go", 140, 0),
  ("internal/mouseharness/terminal.go", 355, 0),
  ("internal/mouseharness/terminal_test.go", 248, 0),
  ("internal/scripting/engine_core.go", 37, 1),
  ("internal/scripting/execution_context.go", 0, 2),
  ("internal/scripting/js_logging_api.go", 18, 4),
  ("internal/scripting/js_state_accessor.go", 5, 0),
  ("internal/scripting/logging.go", 41, 20),
  ("internal/scripting/logging_test.go", 30, 4),
  ("internal/scripting/mouse_test_api_test.go", 27, 25),
  ("internal/scripting/mouse_util_test.go", 53, 610),
  ("internal/scripting/recording_demos_unix_test.go", 372, 33),
  ("internal/scripting/state_manager.go", 5, 0),
  ("internal/scripting/super_document_click_after_scroll_integration_test.go", 3, 3),
  ("internal/scripting/super_document_unix_integration_test.go", 17, 9),
  ("internal/scripting/vhs_record_unix_test.go", 33, 2),
  ("scripts/benchmark-input-latency.js", 31, 31),
  ("scripts/example-04-bt-shooter.js", 228, 398),
  ("scripts/example-05-pick-and-place.js", 1885, 0)
]

/-- The hardcoded path -> category mapping of the script. -/
def EXPECTED_CATEGORIES : CategoryIndex := [
  (".agent/rules/core-code-quality-checks.md", "Metadata"),
  (".deadcodeignore", "Configuration"),
  ("blueprint.json", "Metadata"),
  ("commit.msg", "Metadata"),
  ("example.config.mk", "Configuration"),
  ("go.mod", "Dependencies"),
  ("go.sum", "Dependencies"),
  ("docs/architecture.md", "Documentation"),
  ("docs/design/shooter_e2e_harness_design.md", "Documentation"),
  ("docs/reference/bt-blackboard-usage.md", "Documentation"),
  ("docs/reference/pabt.md", "Documentation"),
  ("docs/reviews/001-pabt-module.md", "Documentation"),
  ("docs/reviews/002-pabt-module.md", "Documentation"),
  ("docs/reviews/003-bubbletea.md", "Documentation"),
  ("docs/reviews/004-mouseharness.md", "Documentation"),
  ("docs/reviews/005-pickandplace.md", "Documentation"),
  ("docs/reviews/006-shooter.md", "Documentation"),
  ("docs/reviews/011-scripting.md", "Documentation"),
  ("docs/reviews/013-documentation.md", "Documentation"),
  ("docs/reviews/015-config.md", "Documentation"),
  ("docs/reviews/021-scripting-engine-exhaustive.md", "Documentation"),
  ("docs/reviews/022-exhaustive-review-session.md", "Documentation"),
  ("docs/reviews/README.md", "Documentation"),
  ("docs/todo.md", "Documentation"),
  ("docs/visuals/gifs/script-example-bt-shooter.tape", "Documentation"),
  ("docs/visuals/gifs/script-example-pick-and-place.tape", "Documentation"),
  ("internal/builtin/register.go", "Core Infrastructure"),
  ("internal/command/pick_and_place_error_recovery_test.go", "Pick-and-Place"),
  ("internal/command/pick_and_place_harness_test.go", "Pick-and-Place"),
  ("internal/command/pick_and_place_mouse_test.go", "Pick-and-Place"),
  ("internal/command/pick_and_place_unix_test.go", "Pick-and-Place"),
  ("internal/example/pickandplace/bubbletea_test.go", "Pick-and-Place"),
  ("internal/example/pickandplace/pick_place_integration_test.go", "Pick-and-Place"),
  ("internal/example/pickandplace/pick_place_manual_mode_comprehensive_test.go", "Pick-and-Place"),
  ("internal/example/pickandplace/pick_place_simulation_consistency_test.go", "Pick-and-Place"),
  ("scripts/example-05-pick-and-place.js", "Pick-and-Place"),
  ("internal/command/shooter_game_test.go", "Shooter Game"),
  ("internal/command/shooter_game_unix_test.go", "Shooter Game"),
  ("internal/command/prompt_flow_editor_test.go", "Other Tests"),
  ("internal/builtin/bt/adapter_test.go", "Behavior Tree"),
  ("internal/builtin/bt/blackboard.go", "Behavior Tree"),
  ("internal/builtin/bt/bridge.go", "Behavior Tree"),
  ("internal/builtin/bt/doc.go", "Behavior Tree"),
  ("internal/builtin/bt/failure_mode_test.go", "Behavior Tree"),
  ("internal/builtin/bubbletea/bubbletea.go", "BubbleTea Builtin"),
  ("internal/builtin/bubbletea/core_logic_test.go", "BubbleTea Builtin"),
  ("internal/builtin/bubbletea/js_model_logic_test.go", "BubbleTea Builtin"),
  ("internal/builtin/bubbletea/message_conversion_test.go", "BubbleTea Builtin"),
  ("internal/builtin/bubbletea/parsekey_test.go", "BubbleTea Builtin"),
  ("internal/builtin/bubbletea/render_throttle_test.go", "BubbleTea Builtin"),
  ("internal/builtin/bubbletea/run_program_test.go", "BubbleTea Builtin"),
  ("internal/builtin/pabt/actions.go", "PABT Module"),
  ("internal/builtin/pabt/benchmark_test.go", "PABT Module"),
  ("internal/builtin/pabt/doc.go", "PABT Module"),
  ("internal/builtin/pabt/empty_actions_test.go", "PABT Module"),
  ("internal/builtin/pabt/evaluation.go", "PABT Module"),
  ("internal/builtin/pabt/evaluation_test.go", "PABT Module"),
  ("internal/builtin/pabt/expr_integration_test.go", "PABT Module"),
  ("internal/builtin/pabt/graph_test.go", "PABT Module"),
  ("internal/builtin/pabt/graphjsimpl_test.go", "PABT Module"),
  ("internal/builtin/pabt/integration_test.go", "PABT Module"),
  ("internal/builtin/pabt/memory_test.go", "PABT Module"),
  ("internal/builtin/pabt/pabt_test.go", "PABT Module"),
  ("internal/builtin/pabt/require.go", "PABT Module"),
  ("internal/builtin/pabt/require_test.go", "PABT Module"),
  ("internal/builtin/pabt/simple.go", "PABT Module"),
  ("internal/builtin/pabt/simple_test.go", "PABT Module"),
  ("internal/builtin/pabt/state.go", "PABT Module"),
  ("internal/builtin/pabt/state_test.go", "PABT Module"),
  ("internal/builtin/pabt/test_helpers_test.go", "PABT Module"),
  ("internal/command/scripting_command.go", "Scripting"),
  ("internal/command/scripting_command_test.go", "Scripting"),
  ("internal/scripting/engine_core.go", "Scripting"),
  ("internal/scripting/execution_context.go", "Scripting"),
  ("internal/scripting/js_logging_api.go", "Scripting"),
  ("internal/scripting/js_state_accessor.go", "Scripting"),
  ("internal/scripting/logging.go", "Scripting"),
  ("internal/scripting/logging_test.go", "Scripting"),
  ("internal/scripting/mouse_test_api_test.go", "Scripting"),
  ("internal/scripting/mouse_util_test.go", "Scripting"),
  ("internal/scripting/recording_demos_unix_test.go", "Scripting"),
  ("internal/scripting/state_manager.go", "Scripting"),
  ("internal/scripting/super_document_click_after_scroll_integration_test.go", "Scripting"),
  ("internal/scripting/super_document_unix_integration_test.go", "Scripting"),
  ("internal/scripting/vhs_record_unix_test.go", "Scripting"),
  ("scripts/example-04-bt-shooter.js", "Scripting"),
  ("scripts/benchmark-input-latency.js", "Other Scripts"),
  ("internal/mouseharness/console.go", "MouseHarness"),
  ("internal/mouseharness/console_test.go", "MouseHarness"),
  ("internal/mouseharness/element.go", "MouseHarness"),
  ("internal/mouseharness/integration_test.go", "MouseHarness"),
  ("internal/mouseharness/internal/dummy/main.go", "MouseHarness"),
  ("internal/mouseharness/main_test.go", "MouseHarness"),
  ("internal/mouseharness/mouse.go", "MouseHarness"),
  ("internal/mouseharness/mouse_test.go", "MouseHarness"),
  ("internal/mouseharness/options.go", "MouseHarness"),
  ("internal/mouseharness/options_test.go", "MouseHarness"),
  ("internal/mouseharness/terminal.go", "MouseHarness"),
  ("internal/mouseharness/terminal_test.go", "MouseHarness")
]

/-- One bucket of the `categories` dict built by `calculate_category_changes`:
`{"files": [...], "additions": n, "deletions": n, "net": n}`. -/
structure CatData where
  files : List ChangeRecord
  additions : Nat
  deletions : Nat
  net : Nat
deriving DecidableEq

/-- `calculate_net_changes()`: `(total_insertions, total_deletions, total_net)`
summed over the change list. -/
def calculate_net_changes (data : ChangeSet) : Nat × Nat × Nat :=
  ((data.map (fun r => r.2.1)).sum,
   (data.map (fun r => r.2.2)).sum,
   (data.map (fun r => r.2.1 + r.2.2)).sum)

/-- `EXPECTED_CATEGORIES.get(path, "UNCATEGORIZED")` — the effective category
of a path. -/
def catOf (expected : CategoryIndex) (path : String) : String :=
  (List.lookup path expected).getD "UNCATEGORIZED"

/-- One loop iteration of `calculate_category_changes`: create the bucket for
`c` on first sight, append the record to its file list and add its counts to
the bucket's running sums.  The bucket keyed `c` is updated in place; a new
bucket is appended at the end (Python dict insertion order). -/
def updateCat : List (String × CatData) → String → ChangeRecord →
    List (String × CatData)
  | [], c, r => [(c, ⟨[r], r.2.1, r.2.2, r.2.1 + r.2.2⟩)]
  | (k, v) :: rest, c, r =>
    if k = c then
      (k, ⟨v.files ++ [r], v.additions + r.2.1, v.deletions + r.2.2,
           v.net + (r.2.1 + r.2.2)⟩) :: rest
    else
      (k, v) :: updateCat rest c r

/-- The fold over the change list performed by `calculate_category_changes`,
with explicit accumulator. -/
def calcAux (expected : CategoryIndex) :
    List (String × CatData) → ChangeSet → List (String × CatData)
  | acc, [] => acc
  | acc, r :: rs => calcAux expected (updateCat acc (catOf expected r.1) r) rs

/-- `calculate_category_changes()`: group records by category (default
`"UNCATEGORIZED"`) and accumulate per-bucket sums. -/
def calculate_category_changes (expected : CategoryIndex) (data : ChangeSet) :
    List (String × CatData) :=
  calcAux expected [] data

/-- Non-strict "key at least as large" relation used to model Python's stable
`sorted(..., key, reverse=True)`. -/
def keyGE (key : α → Nat) (x y : α) : Prop := key y ≤ key x

instance (key : α → Nat) : DecidableRel (keyGE key) :=
  fun x y => inferInstanceAs (Decidable (key y ≤ key x))

instance (key : α → Nat) : IsTotal α (keyGE key) :=
  ⟨fun a b => le_total (key b) (key a)⟩

instance (key : α → Nat) : IsTrans α (keyGE key) :=
  ⟨fun _ _ _ h₁ h₂ => le_trans h₂ h₁⟩

/-- Python's `sorted(l, key=key, reverse=True)`: stable descending sort. -/
def pySortedDesc (key : α → Nat) (l : List α) : List α :=
  l.insertionSort (keyGE key)

/-- Python's `sorted(l)` on strings: ascending sort. -/
def pySortedStr (l : List String) : List String :=
  l.insertionSort (fun x y => x ≤ y)

/-- The file list of bucket `c` (`categories.get(c, {}).get("files", [])`). -/
def bFiles (cats : List (String × CatData)) (c : String) : List ChangeRecord :=
  ((List.lookup c cats).map CatData.files).getD []

/-- The `net` sum of bucket `c` (0 when the bucket is absent). -/
def bNet (cats : List (String × CatData)) (c : String) : Nat :=
  ((List.lookup c cats).map CatData.net).getD 0

/-- Display order of a bucket's files: `sorted(cat['files'], key=lambda x:
x[1], reverse=True)` (line 290 of the script). -/
def displayFileOrder (v : CatData) : List ChangeRecord :=
  pySortedDesc (fun r => r.2.1) v.files

/-- `all_files_in_diff - all_tagged_files`: the set of change-list paths that
have no entry in the category mapping (lines 304–306). -/
def missingSet (data : ChangeSet) (expected : CategoryIndex) : List String :=
  ((data.map (fun r => r.1)).filter
    (fun p => (List.lookup p expected).isNone)).dedup

/-- The externally observable outcome of running `main()`: the global totals,
the category breakdown in display order, the uncategorized warning list, the
missing-files error list, the "all tagged" confirmation, and the process exit
code.  The script never calls `sys.exit`, so the process always exits 0. -/
structure MainReport where
  totalInsertions : Nat
  totalDeletions : Nat
  totalNet : Nat
  netChange : Int
  categories : List (String × CatData)
  sortedCategories : List (String × CatData)
  uncategorized : List ChangeRecord
  missingFiles : List String
  allTagged : Bool
  exitCode : Nat
deriving DecidableEq

/-- The observable behaviour of `main()` on a change list and category
mapping (the script runs it on `GIT_DIFF_DATA` / `EXPECTED_CATEGORIES`). -/
def pymain (data : ChangeSet) (expected : CategoryIndex) : MainReport :=
  { totalInsertions := (calculate_net_changes data).1
    totalDeletions := (calculate_net_changes data).2.1
    totalNet := (calculate_net_changes data).2.2
    netChange := ((calculate_net_changes data).1 : Int) -
      ((calculate_net_changes data).2.1 : Int)
    categories := calculate_category_changes expected data
    sortedCategories :=
      pySortedDesc (fun kv => kv.2.net) (calculate_category_changes expected data)
    uncategorized := bFiles (calculate_category_changes expected data) "UNCATEGORIZED"
    missingFiles := pySortedStr (missingSet data expected)
    allTagged := (missingSet data expected).isEmpty
    exitCode := 0 }

/-- Modelled from the spec's words (§4.1 step 5), for comparison with the
code: "`unmatchedCategoryEntries` = set of CategoryIndex keys minus set of
ChangeSet paths (order: ascending by path)". -/
def spec_unmatchedCategoryEntries (expected : CategoryIndex)
    (data : ChangeSet) : List String :=
  pySortedStr (((expected.map (fun kv => kv.1)).filter
    (fun k => !((data.map (fun r => r.1)).contains k))).dedup)

/-! ### Helper definitions and lemmas -/

/-- Sum of additions over a record list. -/
def sAdd (f : List ChangeRecord) : Nat := (f.map (fun r => r.2.1)).sum

/-- Sum of deletions over a record list. -/
def sDel (f : List ChangeRecord) : Nat := (f.map (fun r => r.2.2)).sum

/-- Sum of additions + deletions over a record list. -/
def sNet (f : List ChangeRecord) : Nat := (f.map (fun r => r.2.1 + r.2.2)).sum

/-- Folding one record into an optional bucket, as `updateCat` does at the
bucket keyed by the record's category. -/
def catStep (o : Option CatData) (r : ChangeRecord) : Option CatData :=
  some (o.elim ⟨[r], r.2.1, r.2.2, r.2.1 + r.2.2⟩
    (fun v => ⟨v.files ++ [r], v.additions + r.2.1, v.deletions + r.2.2,
               v.net + (r.2.1 + r.2.2)⟩))

theorem lookup_updateCat (acc : List (String × CatData)) (c' c : String)
    (r : ChangeRecord) :
    List.lookup c (updateCat acc c' r) =
      if c = c' then catStep (List.lookup c acc) r else List.lookup c acc := by
  induction acc with
  | nil =>
    by_cases h : c = c'
    · have hb : (c == c') = true := by simp [h]
      simp [updateCat, List.lookup, hb, h, catStep]
    · have hb : (c == c') = false := by simp [h]
      simp [updateCat, List.lookup, hb, h]
  | cons head tail ih =>
    obtain ⟨k, v⟩ := head
    by_cases hck : c = k
    · have hb : (c == k) = true := by simp [hck]
      by_cases hk : k = c'
      · have hcc : c = c' := hck.trans hk
        simp [updateCat, hk, List.lookup, hb, hcc, catStep, hck]
      · have hcc : ¬c = c' := fun h => hk (hck.symm.trans h)
        simp [updateCat, hk, List.lookup, hb, hcc, lookup_updateCat tail]
    · have hb : (c == k) = false := by simp [hck]
      by_cases hk : k = c'
      · subst hk
        simp [updateCat, List.lookup, hb, hck]
      · simp [updateCat, hk, List.lookup, hb, ih]

theorem lookup_calcAux (ci : CategoryIndex) (cs : ChangeSet)
    (acc : List (String × CatData)) (c : String) :
    List.lookup c (calcAux ci acc cs) =
      (cs.filter (fun r => catOf ci r.1 == c)).foldl catStep
        (List.lookup c acc) := by
  induction cs generalizing acc with
  | nil => simp [calcAux]
  | cons r rs ih =>
    by_cases h : catOf ci r.1 = c
    · have hb : (catOf ci r.1 == c) = true := by simp [h]
      simp [calcAux, List.filter, hb, List.foldl, ih, lookup_updateCat, h]
    · have hb : (catOf ci r.1 == c) = false := by simp [h]
      have hb' : ¬c = catOf ci r.1 := fun hh => h hh.symm
      simp only [calcAux, List.filter, hb, ih, lookup_updateCat,
        if_neg hb']

theorem foldl_catStep (f : List ChangeRecord) (o : Option CatData) :
    f.foldl catStep o =
      if f.isEmpty then o
      else
        some ⟨((o.map CatData.files).getD []) ++ f,
              ((o.map CatData.additions).getD 0) + sAdd f,
              ((o.map CatData.deletions).getD 0) + sDel f,
              ((o.map CatData.net).getD 0) + sNet f⟩ := by
  induction f generalizing o with
  | nil => simp
  | cons x g ih =>
    simp only [List.foldl, ih, List.isEmpty_cons]
    by_cases hg : g.isEmpty
    · have : g = [] := List.isEmpty_iff.mp hg
      subst this
      cases o <;>
        simp [catStep, Option.elim, sAdd, sDel, sNet]
    · have hgb : g.isEmpty = false := by simp [List.isEmpty_iff] at hg ⊢; exact hg
      cases o <;>
        simp [catStep, Option.elim, hgb, sAdd, sDel, sNet, Nat.add_assoc]

/-- Master characterization of a bucket of `calculate_category_changes`: the
bucket keyed `c` exists iff some record has effective category `c`, its file
list is the subsequence of records with that category in input order, and its
sums are the sums over exactly those records. -/
theorem lookup_calc (ci : CategoryIndex) (data : ChangeSet) (c : String) :
    List.lookup c (calculate_category_changes ci data) =
      (if (data.filter (fun r => catOf ci r.1 == c)).isEmpty then none
       else some ⟨data.filter (fun r => catOf ci r.1 == c),
                  sAdd (data.filter (fun r => catOf ci r.1 == c)),
                  sDel (data.filter (fun r => catOf ci r.1 == c)),
                  sNet (data.filter (fun r => catOf ci r.1 == c))⟩) := by
  rw [calculate_category_changes, lookup_calcAux, foldl_catStep]
  by_cases h : (data.filter (fun r => catOf ci r.1 == c)).isEmpty <;>
    simp [List.lookup, h]

theorem bFiles_calc (ci : CategoryIndex) (data : ChangeSet) (c : String) :
    bFiles (calculate_category_changes ci data) c =
      data.filter (fun r => catOf ci r.1 == c) := by
  rw [bFiles, lookup_calc]
  by_cases h : (data.filter (fun r => catOf ci r.1 == c)).isEmpty
  · simp [h, List.isEmpty_iff.mp h]
  · simp [h]

theorem mem_bFiles_calc (ci : CategoryIndex) (data : ChangeSet) (c : String)
    (r : ChangeRecord) :
    r ∈ bFiles (calculate_category_changes ci data) c ↔
      r ∈ data ∧ catOf ci r.1 = c := by
  rw [bFiles_calc, List.mem_filter]
  simp

/-- Each bucket's stored sums are the sums over its stored file list. -/
theorem bucket_invariant (ci : CategoryIndex) (data : ChangeSet) (c : String)
    (v : CatData) (h : List.lookup c (calculate_category_changes ci data) = some v) :
    v.files = data.filter (fun r => catOf ci r.1 == c) ∧
      v.additions = sAdd v.files ∧ v.deletions = sDel v.files ∧
      v.net = sNet v.files := by
  rw [lookup_calc] at h
  split_ifs at h with he
  cases h
  exact ⟨rfl, rfl, rfl, rfl⟩

theorem sumNet_updateCat (acc : List (String × CatData)) (c : String)
    (r : ChangeRecord) :
    ((updateCat acc c r).map (fun kv => kv.2.net)).sum =
      (acc.map (fun kv => kv.2.net)).sum + (r.2.1 + r.2.2) := by
  induction acc with
  | nil => simp [updateCat]
  | cons head tail ih =>
    obtain ⟨k, v⟩ := head
    by_cases hk : k = c <;>
      simp [updateCat, hk, ih, Nat.add_assoc, Nat.add_comm, Nat.add_left_comm]

theorem sumNet_calcAux (ci : CategoryIndex) (cs : ChangeSet)
    (acc : List (String × CatData)) :
    ((calcAux ci acc cs).map (fun kv => kv.2.net)).sum =
      (acc.map (fun kv => kv.2.net)).sum + sNet cs := by
  induction cs generalizing acc with
  | nil => simp [calcAux, sNet]
  | cons r rs ih =>
    simp [calcAux, ih, sumNet_updateCat, sNet, Nat.add_assoc,
      Nat.add_comm, Nat.add_left_comm]

theorem sumLen_updateCat (acc : List (String × CatData)) (c : String)
    (r : ChangeRecord) :
    ((updateCat acc c r).map (fun kv => kv.2.files.length)).sum =
      (acc.map (fun kv => kv.2.files.length)).sum + 1 := by
  induction acc with
  | nil => simp [updateCat]
  | cons head tail ih =>
    obtain ⟨k, v⟩ := head
    by_cases hk : k = c <;>
      simp [updateCat, hk, ih, Nat.add_assoc, Nat.add_comm, Nat.add_left_comm]

theorem sumLen_calcAux (ci : CategoryIndex) (cs : ChangeSet)
    (acc : List (String × CatData)) :
    ((calcAux ci acc cs).map (fun kv => kv.2.files.length)).sum =
      (acc.map (fun kv => kv.2.files.length)).sum + cs.length := by
  induction cs generalizing acc with
  | nil => simp [calcAux]
  | cons r rs ih =>
    simp [calcAux, ih, sumLen_updateCat, Nat.add_assoc,
      Nat.add_comm, Nat.add_left_comm]

theorem keys_updateCat (acc : List (String × CatData)) (c : String)
    (r : ChangeRecord) :
    (updateCat acc c r).map Prod.fst =
      if c ∈ acc.map Prod.fst then acc.map Prod.fst
      else acc.map Prod.fst ++ [c] := by
  induction acc with
  | nil => simp [updateCat]
  | cons head tail ih =>
    obtain ⟨k, v⟩ := head
    by_cases hk : k = c
    · simp [updateCat, hk]
    · have : ¬c = k := fun h => hk h.symm
      simp only [updateCat, if_neg hk, List.map, ih]
      by_cases hm : c ∈ tail.map Prod.fst <;> simp [hm, this]

theorem keysNodup_calcAux (ci : CategoryIndex) (cs : ChangeSet)
    (acc : List (String × CatData))
    (h : (acc.map Prod.fst).Nodup) :
    ((calcAux ci acc cs).map Prod.fst).Nodup := by
  induction cs generalizing acc with
  | nil => exact h
  | cons r rs ih =>
    refine ih _ ?_
    rw [keys_updateCat]
    by_cases hm : catOf ci r.1 ∈ acc.map Prod.fst
    · simpa [hm] using h
    · simp only [hm, if_false]
      refine List.nodup_append.mpr ⟨h, List.nodup_singleton _, ?_⟩
      intro a ha hb
      simp only [List.mem_singleton] at hb
      subst hb
      exact hm ha

theorem keysNodup_calc (ci : CategoryIndex) (data : ChangeSet) :
    ((calculate_category_changes ci data).map Prod.fst).Nodup :=
  keysNodup_calcAux ci data [] (by simp)

/-! ### Association-list lemmas -/

theorem lookup_mem {α β : Type} [BEq α] [LawfulBEq α] {l : List (α × β)}
    {a : α} {b : β} (h : List.lookup a l = some b) : (a, b) ∈ l := by
  induction l with
  | nil => cases h
  | cons head tail ih =>
    obtain ⟨k, v⟩ := head
    by_cases hk : a = k
    · subst hk
      simp [List.lookup] at h
      simp [h]
    · have hb : (a == k) = false := by simp [hk]
      simp only [List.lookup, hb] at h
      exact List.mem_cons_of_mem _ (ih h)

theorem mem_lookup_of_keysNodup {α β : Type} [BEq α] [LawfulBEq α]
    {l : List (α × β)} (hnd : (l.map Prod.fst).Nodup) {a : α} {b : β}
    (h : (a, b) ∈ l) : List.lookup a l = some b := by
  induction l with
  | nil => cases h
  | cons head tail ih =>
    obtain ⟨k, v⟩ := head
    rcases List.mem_cons.mp h with h1 | h1
    · obtain ⟨rfl, rfl⟩ := Prod.mk.injEq .. ▸ h1
      simp_all [List.lookup]
    · have hk : ¬a = k := by
        rintro rfl
        exact (List.nodup_cons.mp hnd).1 (List.mem_map.mpr ⟨(a, b), h1, rfl⟩)
      have hb : (a == k) = false := by simp [hk]
      simp only [List.lookup, hb]
      exact ih (List.nodup_cons.mp hnd).2 h1

/-- With nodup keys, two entries containing a common element and the same key
are the same entry. -/
theorem entry_unique_of_keysNodup {α β : Type} {l : List (α × β)}
    (hnd : (l.map Prod.fst).Nodup) {kv kv' : α × β}
    (h : kv ∈ l) (h' : kv' ∈ l) (heq : kv.1 = kv'.1) : kv = kv' := by
  induction l with
  | nil => cases h
  | cons head tail ih =>
    rcases List.mem_cons.mp h with h1 | h1 <;>
      rcases List.mem_cons.mp h' with h2 | h2
    · exact h1.trans h2.symm
    · exfalso
      subst h1
      exact (List.nodup_cons.mp hnd).1
        (heq ▸ List.mem_map.mpr ⟨kv', h2, rfl⟩)
    · exfalso
      subst h2
      exact (List.nodup_cons.mp hnd).1
        (heq.symm ▸ List.mem_map.mpr ⟨kv, h1, rfl⟩)
    · exact ih (List.nodup_cons.mp hnd).2 h1 h2

/-! ### Stability of the modelled Python sort -/

theorem filter_orderedInsert_keyGE (key : α → Nat) (P : α → Bool)
    (hP : ∀ x y, P x = true → key x < key y → P y = false)
    (a : α) (l : List α) :
    (List.orderedInsert (keyGE key) a l).filter P =
      if P a then a :: l.filter P else l.filter P := by
  induction l with
  | nil =>
    cases hPa : P a <;> simp [List.orderedInsert, List.filter, hPa]
  | cons b bs ih =>
    by_cases h : keyGE key a b
    · cases hPa : P a <;>
        simp [List.orderedInsert, if_pos h, List.filter, hPa]
    · have hlt : key a < key b := Nat.lt_of_not_le h
      cases hPa : P a
      · cases hPb : P b <;>
          simp [List.orderedInsert, if_neg h, List.filter, hPa, hPb, ih]
      · have hPb : P b = false := hP a b hPa hlt
        simp [List.orderedInsert, if_neg h, List.filter, hPa, hPb, ih]

theorem filter_insertionSort_keyGE (key : α → Nat) (P : α → Bool)
    (hP : ∀ x y, P x = true → key x < key y → P y = false)
    (l : List α) :
    (l.insertionSort (keyGE key)).filter P = l.filter P := by
  induction l with
  | nil => rfl
  | cons x xs ih =>
    rw [List.insertionSort, filter_orderedInsert_keyGE key P hP, ih]
    cases hPx : P x <;> simp [List.filter, hPx]

/-- The stable descending sort by `key`: sorted, and elements with a common
key value keep their original relative order. -/
theorem pySortedDesc_spec (key : α → Nat) (l : List α) :
    (pySortedDesc key l).Sorted (keyGE key) ∧
      ∀ n : Nat, (pySortedDesc key l).filter (fun x => key x == n) =
        l.filter (fun x => key x == n) := by
  refine ⟨List.sorted_insertionSort _ _, fun n => ?_⟩
  apply filter_insertionSort_keyGE
  intro x y hx hlt
  have hx' : key x = n := by simpa using hx
  simp [Nat.ne_of_gt (hx' ▸ hlt)]

/-! ### Sum splitting and filtered assoc lists -/

theorem sum_filter_split (l : List α) (f : α → Nat) (P : α → Bool) :
    ((l.filter P).map f).sum +
      ((l.filter (fun x => !(P x))).map f).sum = (l.map f).sum := by
  induction l with
  | nil => rfl
  | cons x xs ih =>
    cases hx : P x <;>
      simp [List.filter, hx, ← ih, Nat.add_assoc, Nat.add_comm,
        Nat.add_left_comm]

theorem filter_key_nil {β : Type} {l : List (String × β)} {u : String}
    (h : u ∉ l.map Prod.fst) :
    l.filter (fun kv => kv.1 == u) = [] := by
  induction l with
  | nil => rfl
  | cons head tail ih =>
    obtain ⟨k, v⟩ := head
    have hk : ¬k = u := by
      rintro rfl
      exact h (by simp)
    have : (k == u) = false := by simp [hk]
    simp only [List.filter, this]
    exact ih (fun hm => h (List.mem_cons_of_mem _ hm))

theorem filter_key_eq_of_keysNodup {β : Type} {l : List (String × β)}
    (hnd : (l.map Prod.fst).Nodup) (u : String) :
    l.filter (fun kv => kv.1 == u) =
      (List.lookup u l).elim [] (fun v => [(u, v)]) := by
  induction l with
  | nil => rfl
  | cons head tail ih =>
    obtain ⟨k, v⟩ := head
    by_cases hk : k = u
    · subst hk
      have h1 : k ∉ tail.map Prod.fst := (List.nodup_cons.mp hnd).1
      have hb : (k == k) = true := by simp
      simp [List.filter, List.lookup, hb, filter_key_nil h1, Option.elim]
    · have hb : (k == u) = false := by simp [hk]
      have hb' : (u == k) = false := by
        simp only [beq_eq_false_iff_ne, ne_eq]
        exact fun h => hk h.symm
      simp only [List.filter, List.lookup, hb, hb']
      exact ih (List.nodup_cons.mp hnd).2

theorem mem_missingSet (data : ChangeSet) (ci : CategoryIndex) (p : String) :
    p ∈ missingSet data ci ↔
      p ∈ data.map (fun r => r.1) ∧ List.lookup p ci = none := by
  rw [missingSet, List.mem_dedup, List.mem_filter]
  simp [Option.isNone_iff_eq_none]

theorem mem_pySortedStr (l : List String) (p : String) :
    p ∈ pySortedStr l ↔ p ∈ l :=
  (List.perm_insertionSort _ l).mem_iff

theorem sorted_pySortedStr (l : List String) :
    (pySortedStr l).Sorted (· ≤ ·) :=
  List.sorted_insertionSort _ l

theorem nodup_pySortedStr (l : List String) (h : l.Nodup) :
    (pySortedStr l).Nodup :=
  (List.perm_insertionSort _ l).nodup_iff.mpr h

/-- If a record lies in the file view of bucket `c`, the bucket exists and
contains it. -/
theorem exists_bucket_of_mem (ci : CategoryIndex) (data : ChangeSet)
    (c : String) (r : ChangeRecord)
    (h : r ∈ bFiles (calculate_category_changes ci data) c) :
    ∃ v : CatData, List.lookup c (calculate_category_changes ci data) = some v ∧
      r ∈ v.files := by
  cases hl : List.lookup c (calculate_category_changes ci data) with
  | none =>
    rw [bFiles, hl] at h
    simp at h
  | some v =>
    refine ⟨v, rfl, ?_⟩
    rw [bFiles, hl] at h
    simpa using h

/-- Every entry of the categories dict stores exactly the input-order records
of its category, and sums over exactly those records. -/
theorem files_of_mem_calc (ci : CategoryIndex) (data : ChangeSet)
    {kv : String × CatData} (h : kv ∈ calculate_category_changes ci data) :
    kv.2.files = data.filter (fun r => catOf ci r.1 == kv.1) ∧
      kv.2.additions = sAdd kv.2.files ∧ kv.2.deletions = sDel kv.2.files ∧
      kv.2.net = sNet kv.2.files := by
  have hl : List.lookup kv.1 (calculate_category_changes ci data) = some kv.2 :=
    mem_lookup_of_keysNodup (keysNodup_calc ci data) h
  exact bucket_invariant ci data kv.1 kv.2 hl

/-! ### Claim theorems -/

/-- C1 (counterexample): the script's missing-files section is NOT the set of
category-mapping keys minus the change-list paths.  With change list
`[("x.go", 1, 1)]` and mapping `{"y.go": "Core"}` the claim predicts
`["y.go"]`, but the code (line 306: `all_files_in_diff - all_tagged_files`)
computes the opposite difference and reports `["x.go"]`. -/
theorem c1_counterexample :
    (pymain [("x.go", 1, 1)] [("y.go", "Core")]).missingFiles = ["x.go"] ∧
      spec_unmatchedCategoryEntries [("y.go", "Core")] [("x.go", 1, 1)] =
        ["y.go"] ∧
      (["x.go"] : List String) ≠ ["y.go"] :=
  ⟨by decide, by decide, by decide⟩

/-- C1 (amended): the missing-files list is exactly the set of ChangeSet
paths that have no entry in the CategoryIndex (the opposite difference from
the claim), deduplicated, ordered ascending by path. -/
theorem c1_amended_missing_files (data : ChangeSet) (ci : CategoryIndex) :
    (pymain data ci).missingFiles.Sorted (· ≤ ·) ∧
      (pymain data ci).missingFiles.Nodup ∧
      ∀ p : String, p ∈ (pymain data ci).missingFiles ↔
        p ∈ data.map (fun r => r.1) ∧ List.lookup p ci = none := by
  refine ⟨sorted_pySortedStr _, nodup_pySortedStr _ (List.nodup_dedup _),
    fun p => ?_⟩
  rw [show (pymain data ci).missingFiles = pySortedStr (missingSet data ci)
    from rfl, mem_pySortedStr, mem_missingSet]

/-- C2 (counterexample): a run whose report has non-empty drift in both the
uncategorized warning and the missing-files error section still exits with
code 0 — the script never calls `sys.exit`. -/
theorem c2_counterexample :
    (pymain [("b.go", 5, 0)] []).uncategorized = [("b.go", 5, 0)] ∧
      (pymain [("b.go", 5, 0)] []).missingFiles = ["b.go"] ∧
      (pymain [("b.go", 5, 0)] []).exitCode = 0 :=
  ⟨by decide, by decide, rfl⟩

/-- C2 (amended): the process exit code is 0 for every input, regardless of
drift in either list. -/
theorem c2_amended_exit_code (data : ChangeSet) (ci : CategoryIndex) :
    (pymain data ci).exitCode = 0 :=
  rfl

/-- C3 (counterexample): a change list with a duplicated path is not
rejected; `calculate_category_changes` aggregates both records into the same
bucket, double-counting the path (no `DuplicatePathError` exists). -/
theorem c3_counterexample :
    calculate_category_changes [("a.go", "Core")]
        [("a.go", 1, 0), ("a.go", 2, 0)] =
      [("Core", ⟨[("a.go", 1, 0), ("a.go", 2, 0)], 3, 0, 3⟩)] := by
  decide

/-- C3 (amended): duplicate paths are never rejected: every record of the
change list, duplicates included, is placed in some bucket's file list, so
the bucket file lists hold exactly as many records as the input. -/
theorem c3_amended_duplicates_kept (ci : CategoryIndex) (data : ChangeSet) :
    ((calculate_category_changes ci data).map
      (fun kv => kv.2.files.length)).sum = data.length := by
  simpa [calculate_category_changes] using sumLen_calcAux ci data []

/-- C8 (counterexample): category mappings with an empty or with a blank
(whitespace-only) category name are not rejected; the records are aggregated
under the ordinary categories `""` and `" "` and a full report is produced
(no `EmptyCategoryNameError` exists). -/
theorem c8_counterexample :
    calculate_category_changes [("a.go", "")] [("a.go", 2, 1)] =
        [("", ⟨[("a.go", 2, 1)], 2, 1, 3⟩)] ∧
      calculate_category_changes [("a.go", " ")] [("a.go", 2, 1)] =
        [(" ", ⟨[("a.go", 2, 1)], 2, 1, 3⟩)] :=
  ⟨by decide, by decide⟩

/-- C8 (amended): a mapping entry's category string is used verbatim and
unvalidated — an entry mapping a path to any category string `c`, in
particular the empty string `""` or a blank, whitespace-only string such as
`" "`, is accepted and the record aggregated under the ordinary category
named exactly `c`. -/
theorem c8_amended_empty_category (data : ChangeSet) (ci : CategoryIndex)
    (p : String) (a d : Nat) (c : String)
    (h1 : List.lookup p ci = some c) (h2 : (p, a, d) ∈ data) :
    ∃ v : CatData,
      List.lookup c (calculate_category_changes ci data) = some v ∧
        (p, a, d) ∈ v.files := by
  have hcat : catOf ci p = c := by simp [catOf, h1]
  exact exists_bucket_of_mem ci data c (p, a, d)
    ((mem_bFiles_calc ci data c (p, a, d)).mpr ⟨h2, hcat⟩)

/-- C8 witness: concrete instances of the amended claim for an empty and for
a blank (whitespace-only) category name. -/
theorem c8_amended_empty_category_witness :
    (List.lookup "a.go" [("a.go", "")] = some "" ∧
      ("a.go", 2, 1) ∈ [(("a.go", 2, 1) : ChangeRecord)] ∧
      ∃ v : CatData,
        List.lookup "" (calculate_category_changes [("a.go", "")]
          [("a.go", 2, 1)]) = some v ∧ ("a.go", 2, 1) ∈ v.files) ∧
      (List.lookup "b.go" [("b.go", " ")] = some " " ∧
        ("b.go", 4, 0) ∈ [(("b.go", 4, 0) : ChangeRecord)] ∧
        ∃ v : CatData,
          List.lookup " " (calculate_category_changes [("b.go", " ")]
            [("b.go", 4, 0)]) = some v ∧ ("b.go", 4, 0) ∈ v.files) :=
  ⟨⟨by decide, by decide,
      c8_amended_empty_category [("a.go", 2, 1)] [("a.go", "")] "a.go" 2 1 ""
        (by decide) (by decide)⟩,
    ⟨by decide, by decide,
      c8_amended_empty_category [("b.go", 4, 0)] [("b.go", " ")] "b.go" 4 0 " "
        (by decide) (by decide)⟩⟩

/-- C9 (counterexample): a mapping that supplies the literal category
`"UNCATEGORIZED"` is silently merged with the unmapped records: the
aggregation is identical to the mapping having no entry for that path, the
record lands in the uncategorized warning bucket, and the run still prints
the "all tagged" confirmation — no collision flag of any kind. -/
theorem c9_counterexample :
    calculate_category_changes [("a.go", "UNCATEGORIZED")] [("a.go", 1, 0)] =
        calculate_category_changes [] [("a.go", 1, 0)] ∧
      (pymain [("a.go", 1, 0)] [("a.go", "UNCATEGORIZED")]).uncategorized =
        [("a.go", 1, 0)] ∧
      (pymain [("a.go", 1, 0)] [("a.go", "UNCATEGORIZED")]).allTagged = true :=
  ⟨by decide, by decide, by decide⟩

/-- C9 (amended): the aggregation depends only on the effective category
function `catOf` — which conflates a literal `"UNCATEGORIZED"` entry with
the absence of an entry — so such a collision is silently merged, never
flagged. -/
theorem c9_amended_sentinel_merged (data : ChangeSet)
    (ci ci' : CategoryIndex) (h : ∀ p, catOf ci p = catOf ci' p) :
    calculate_category_changes ci data =
      calculate_category_changes ci' data := by
  suffices hs : ∀ acc, calcAux ci acc data = calcAux ci' acc data from hs []
  induction data with
  | nil => intro acc; rfl
  | cons r rs ih => intro acc; simp [calcAux, h r.1, ih]

/-- C9 witness: the mapping `{"a.go": "UNCATEGORIZED"}` aggregates exactly
like the empty mapping. -/
theorem c9_amended_sentinel_merged_witness :
    calculate_category_changes [("a.go", "UNCATEGORIZED")]
        [("a.go", 1, 0), ("b.go", 2, 0)] =
      calculate_category_changes [] [("a.go", 1, 0), ("b.go", 2, 0)] :=
  c9_amended_sentinel_merged _ _ _ (fun p => by
    by_cases h : p = "a.go"
    · subst h; decide
    · have hb : (p == "a.go") = false := by simp [h]
      simp [catOf, List.lookup, hb])

theorem count_filter_eq {α : Type} [BEq α] [LawfulBEq α] (l : List α)
    (P : α → Bool) (a : α) (h : P a = true) :
    (l.filter P).count a = l.count a := by
  induction l with
  | nil => rfl
  | cons x xs ih =>
    cases hx : P x
    · have hxa : (x == a) = false := by
        simp only [beq_eq_false_iff_ne, ne_eq]
        rintro rfl
        rw [h] at hx
        cases hx
      simp [List.filter, hx, List.count_cons, ih, hxa]
    · simp [List.filter, hx, List.count_cons, ih]

theorem count_le_count_map_fst (data : ChangeSet) (r : ChangeRecord) :
    data.count r ≤ (data.map (fun x => x.1)).count r.1 := by
  induction data with
  | nil => exact Nat.le_refl 0
  | cons x xs ih =>
    simp only [List.map, List.count_cons]
    refine Nat.add_le_add ih ?_
    by_cases hx : x = r
    · subst hx
      simp
    · have hb : (x == r) = false := by simp [hx]
      simp [hb, Nat.zero_le]

/-- C4: with no duplicate paths, every change record lies in the
uncategorized bucket XOR in exactly one proper aggregate (a bucket keyed by a
name other than the sentinel), appearing there exactly once. -/
theorem c4_partition (data : ChangeSet) (ci : CategoryIndex)
    (hnd : (data.map (fun r => r.1)).Nodup)
    (r : ChangeRecord) (hr : r ∈ data) :
    (Xor' (r ∈ (pymain data ci).uncategorized)
        (∃ kv ∈ (pymain data ci).categories,
          kv.1 ≠ "UNCATEGORIZED" ∧ r ∈ kv.2.files)) ∧
      (∀ kv₁ ∈ (pymain data ci).categories, ∀ kv₂ ∈ (pymain data ci).categories,
        r ∈ kv₁.2.files → r ∈ kv₂.2.files → kv₁ = kv₂) ∧
      (bFiles (pymain data ci).categories (catOf ci r.1)).count r = 1 := by
  have hcats : (pymain data ci).categories =
      calculate_category_changes ci data := rfl
  have huncat : (pymain data ci).uncategorized =
      bFiles (calculate_category_changes ci data) "UNCATEGORIZED" := rfl
  have hkey : ∀ kv, kv ∈ calculate_category_changes ci data →
      r ∈ kv.2.files → catOf ci r.1 = kv.1 := by
    intro kv hkv hrf
    have := (files_of_mem_calc ci data hkv).1
    rw [this, List.mem_filter] at hrf
    simpa using hrf.2
  refine ⟨?_, ?_, ?_⟩
  · by_cases hU : catOf ci r.1 = "UNCATEGORIZED"
    · refine Or.inl ⟨?_, ?_⟩
      · rw [huncat]
        exact (mem_bFiles_calc ci data _ r).mpr ⟨hr, hU⟩
      · rintro ⟨kv, hkv, hne, hrf⟩
        rw [hcats] at hkv
        exact hne ((hkey kv hkv hrf).symm.trans hU)
    · refine Or.inr ⟨?_, ?_⟩
      · have hmem : r ∈ bFiles (calculate_category_changes ci data)
            (catOf ci r.1) :=
          (mem_bFiles_calc ci data _ r).mpr ⟨hr, rfl⟩
        obtain ⟨v, hl, hrv⟩ := exists_bucket_of_mem ci data _ r hmem
        exact ⟨(catOf ci r.1, v), hcats ▸ lookup_mem hl, hU, hrv⟩
      · intro hru
        rw [huncat] at hru
        exact hU ((mem_bFiles_calc ci data _ r).mp hru).2
  · intro kv₁ h₁ kv₂ h₂ hr₁ hr₂
    rw [hcats] at h₁ h₂
    have e₁ := hkey kv₁ h₁ hr₁
    have e₂ := hkey kv₂ h₂ hr₂
    exact entry_unique_of_keysNodup (keysNodup_calc ci data) h₁ h₂
      (e₁ ▸ e₂ ▸ rfl)
  · rw [hcats, bFiles_calc,
      count_filter_eq data (fun x => catOf ci x.1 == catOf ci r.1) r
        (by simp)]
    have hle : data.count r ≤ 1 :=
      Nat.le_trans (count_le_count_map_fst data r)
        (List.nodup_iff_count_le_one.mp hnd r.1)
    have hge : 1 ≤ data.count r := List.count_pos_iff.mpr hr
    exact Nat.le_antisymm hle hge

/-- C4 witness: concrete instance of the partition invariant. -/
theorem c4_partition_witness :
    ((([("a.go", 1, 0), ("b.go", 2, 0)] : ChangeSet).map
      (fun r => r.1)).Nodup) ∧
      (("a.go", 1, 0) ∈ ([("a.go", 1, 0), ("b.go", 2, 0)] : ChangeSet)) ∧
      ((Xor' (("a.go", 1, 0) ∈
          (pymain [("a.go", 1, 0), ("b.go", 2, 0)] [("a.go", "Core")]).uncategorized)
        (∃ kv ∈ (pymain [("a.go", 1, 0), ("b.go", 2, 0)]
            [("a.go", "Core")]).categories,
          kv.1 ≠ "UNCATEGORIZED" ∧ ("a.go", 1, 0) ∈ kv.2.files)) ∧
      (∀ kv₁ ∈ (pymain [("a.go", 1, 0), ("b.go", 2, 0)]
          [("a.go", "Core")]).categories,
        ∀ kv₂ ∈ (pymain [("a.go", 1, 0), ("b.go", 2, 0)]
          [("a.go", "Core")]).categories,
        ("a.go", 1, 0) ∈ kv₁.2.files → ("a.go", 1, 0) ∈ kv₂.2.files →
          kv₁ = kv₂) ∧
      (bFiles (pymain [("a.go", 1, 0), ("b.go", 2, 0)]
          [("a.go", "Core")]).categories
        (catOf [("a.go", "Core")] "a.go")).count ("a.go", 1, 0) = 1) :=
  ⟨by decide, by decide,
    c4_partition [("a.go", 1, 0), ("b.go", 2, 0)] [("a.go", "Core")]
      (by decide) ("a.go", 1, 0) (by decide)⟩

/-- C5: with no duplicate paths the run terminates with
`totalLinesChanged = Σ (additions + deletions)`, the proper aggregates' net
sums plus the uncategorized records' net sum equal the total, and
`netChange = totalInsertions - totalDeletions`. -/
theorem c5_totals (data : ChangeSet) (ci : CategoryIndex)
    (hnd : (data.map (fun r => r.1)).Nodup) :
    (pymain data ci).totalNet =
        (data.map (fun r => r.2.1 + r.2.2)).sum ∧
      ((((pymain data ci).categories.filter
          (fun kv => !(kv.1 == "UNCATEGORIZED"))).map
            (fun kv => kv.2.net)).sum +
        ((pymain data ci).uncategorized.map
          (fun r => r.2.1 + r.2.2)).sum = (pymain data ci).totalNet) ∧
      (pymain data ci).netChange =
        ((pymain data ci).totalInsertions : Int) -
          ((pymain data ci).totalDeletions : Int) := by
  refine ⟨rfl, ?_, rfl⟩
  have hcats : (pymain data ci).categories =
      calculate_category_changes ci data := rfl
  have huncat : ((pymain data ci).uncategorized.map
      (fun r => r.2.1 + r.2.2)).sum =
      sNet (bFiles (calculate_category_changes ci data) "UNCATEGORIZED") := rfl
  have hsplit := sum_filter_split (calculate_category_changes ci data)
    (fun kv => kv.2.net) (fun kv => kv.1 == "UNCATEGORIZED")
  have hU : (((calculate_category_changes ci data).filter
      (fun kv => kv.1 == "UNCATEGORIZED")).map (fun kv => kv.2.net)).sum =
      sNet (bFiles (calculate_category_changes ci data) "UNCATEGORIZED") := by
    rw [filter_key_eq_of_keysNodup (keysNodup_calc ci data)]
    cases hl : List.lookup "UNCATEGORIZED" (calculate_category_changes ci data) with
    | none => simp [bFiles, hl, sNet]
    | some v =>
      have hv := bucket_invariant ci data _ v hl
      simp [bFiles, hl, Option.elim, hv.2.2.2]
  have htot : ((calculate_category_changes ci data).map
      (fun kv => kv.2.net)).sum = sNet data := by
    simpa [calculate_category_changes] using sumNet_calcAux ci data []
  rw [hcats, huncat, ← hU]
  rw [show (pymain data ci).totalNet = sNet data from rfl, ← htot,
    ← hsplit]
  exact Nat.add_comm _ _

/-- C5 witness: concrete instance of the totals invariant. -/
theorem c5_totals_witness :
    ((([("a.go", 10, 2), ("b.go", 5, 0)] : ChangeSet).map
      (fun r => r.1)).Nodup) ∧
      ((pymain [("a.go", 10, 2), ("b.go", 5, 0)] [("a.go", "Core")]).totalNet =
        (([("a.go", 10, 2), ("b.go", 5, 0)] : ChangeSet).map
          (fun r => r.2.1 + r.2.2)).sum ∧
      ((((pymain [("a.go", 10, 2), ("b.go", 5, 0)]
          [("a.go", "Core")]).categories.filter
          (fun kv => !(kv.1 == "UNCATEGORIZED"))).map
            (fun kv => kv.2.net)).sum +
        ((pymain [("a.go", 10, 2), ("b.go", 5, 0)]
          [("a.go", "Core")]).uncategorized.map
          (fun r => r.2.1 + r.2.2)).sum =
        (pymain [("a.go", 10, 2), ("b.go", 5, 0)] [("a.go", "Core")]).totalNet) ∧
      (pymain [("a.go", 10, 2), ("b.go", 5, 0)] [("a.go", "Core")]).netChange =
        ((pymain [("a.go", 10, 2), ("b.go", 5, 0)]
          [("a.go", "Core")]).totalInsertions : Int) -
          ((pymain [("a.go", 10, 2), ("b.go", 5, 0)]
            [("a.go", "Core")]).totalDeletions : Int)) :=
  ⟨by decide,
    c5_totals [("a.go", 10, 2), ("b.go", 5, 0)] [("a.go", "Core")] (by decide)⟩

/-- C6 (counterexample): two categories with equal `totalLinesChanged` are
NOT ordered by name ascending: with `Z` created before `A` and equal nets,
the breakdown lists `Z` first although `"A" < "Z"`.  (Python's stable sort
with `reverse=True` keeps equal-key elements in dict insertion order.) -/
theorem c6_counterexample :
    ((pymain [("b.go", 1, 0), ("a.go", 1, 0)]
        [("b.go", "Z"), ("a.go", "A")]).sortedCategories.map
      (fun kv => kv.1)) = ["Z", "A"] ∧
      ((pymain [("b.go", 1, 0), ("a.go", 1, 0)]
          [("b.go", "Z"), ("a.go", "A")]).sortedCategories.map
        (fun kv => kv.2.net)) = [1, 1] ∧
      ("A" : String) < "Z" := by
  refine ⟨by decide, by decide, ?_⟩
  rw [String.lt_iff_toList_lt]
  decide

/-- C6 (amended): the category breakdown is ordered by descending
`totalLinesChanged`; aggregates with equal totals keep their first-creation
(dict insertion) order, not category-name order.  The output is a pure
function of the inputs, hence deterministic across runs. -/
theorem c6_amended_category_order (data : ChangeSet) (ci : CategoryIndex) :
    ((pymain data ci).sortedCategories.Sorted
      (keyGE (fun kv => kv.2.net))) ∧
      ∀ n : Nat, (pymain data ci).sortedCategories.filter
          (fun kv => kv.2.net == n) =
        (pymain data ci).categories.filter (fun kv => kv.2.net == n) :=
  pySortedDesc_spec (fun kv => kv.2.net) (calculate_category_changes ci data)

/-- C7 (counterexample): two files with equal additions inside one aggregate
are NOT ordered by path ascending: `b.go` is listed before `a.go` although
`"a.go" < "b.go"` (stable sort keeps input order on ties). -/
theorem c7_counterexample :
    ((calculate_category_changes [("b.go", "C"), ("a.go", "C")]
        [("b.go", 1, 0), ("a.go", 1, 0)]).map
      (fun kv => displayFileOrder kv.2)) =
        [[("b.go", 1, 0), ("a.go", 1, 0)]] ∧
      ("a.go" : String) < "b.go" := by
  refine ⟨by decide, ?_⟩
  rw [String.lt_iff_toList_lt]
  decide

/-- C7 (amended): each aggregate's displayed file list is ordered by
descending additions with ties kept in aggregation (input) order, and the
display sort leaves the aggregate's stored sums untouched (they equal the
sums over the displayed list). -/
theorem c7_amended_file_order (data : ChangeSet) (ci : CategoryIndex)
    (kv : String × CatData) (h : kv ∈ calculate_category_changes ci data) :
    (displayFileOrder kv.2).Sorted (keyGE (fun r => r.2.1)) ∧
      (∀ n : Nat, (displayFileOrder kv.2).filter (fun r => r.2.1 == n) =
        kv.2.files.filter (fun r => r.2.1 == n)) ∧
      sAdd (displayFileOrder kv.2) = kv.2.additions ∧
      sDel (displayFileOrder kv.2) = kv.2.deletions ∧
      sNet (displayFileOrder kv.2) = kv.2.net := by
  obtain ⟨hf, ha, hd, hn⟩ := files_of_mem_calc ci data h
  have hs := pySortedDesc_spec (fun r : ChangeRecord => r.2.1) kv.2.files
  have hperm : List.Perm (displayFileOrder kv.2) kv.2.files :=
    List.perm_insertionSort _ kv.2.files
  refine ⟨hs.1, hs.2, ?_, ?_, ?_⟩
  · rw [sAdd, (hperm.map (fun r => r.2.1)).sum_eq, ← sAdd, ← ha]
  · rw [sDel, (hperm.map (fun r => r.2.2)).sum_eq, ← sDel, ← hd]
  · rw [sNet, (hperm.map (fun r => r.2.1 + r.2.2)).sum_eq, ← sNet, ← hn]

/-- C7 witness: concrete instance of the amended display-order claim. -/
theorem c7_amended_file_order_witness :
    ((("Core", ⟨[("a.go", 3, 1)], 3, 1, 4⟩) : String × CatData) ∈
        calculate_category_changes [("a.go", "Core")] [("a.go", 3, 1)]) ∧
      (displayFileOrder (⟨[("a.go", 3, 1)], 3, 1, 4⟩ : CatData)).Sorted
        (keyGE (fun r => r.2.1)) ∧
      ((displayFileOrder (⟨[("a.go", 3, 1)], 3, 1, 4⟩ : CatData)).filter
          (fun r => r.2.1 == 3) =
        ([("a.go", 3, 1)] : List ChangeRecord).filter
          (fun r => r.2.1 == 3)) ∧
      sAdd (displayFileOrder (⟨[("a.go", 3, 1)], 3, 1, 4⟩ : CatData)) = 3 :=
  ⟨by decide,
    (c7_amended_file_order [("a.go", 3, 1)] [("a.go", "Core")]
      ("Core", ⟨[("a.go", 3, 1)], 3, 1, 4⟩) (by decide)).1,
    (c7_amended_file_order [("a.go", 3, 1)] [("a.go", "Core")]
      ("Core", ⟨[("a.go", 3, 1)], 3, 1, 4⟩) (by decide)).2.1 3,
    (c7_amended_file_order [("a.go", 3, 1)] [("a.go", "Core")]
      ("Core", ⟨[("a.go", 3, 1)], 3, 1, 4⟩) (by decide)).2.2.1⟩

/-- C10: provided no mapping entry carries the literal category
`"UNCATEGORIZED"`, the missing-files error section and the uncategorized
warning bucket name exactly the same paths, and the "all tagged"
confirmation is printed iff the uncategorized warning is absent. -/
theorem c10_equivalence (data : ChangeSet) (ci : CategoryIndex)
    (h : ∀ kv ∈ ci, kv.2 ≠ "UNCATEGORIZED") :
    (∀ p : String, p ∈ (pymain data ci).missingFiles ↔
        p ∈ (pymain data ci).uncategorized.map (fun r => r.1)) ∧
      ((pymain data ci).allTagged = true ↔
        (pymain data ci).uncategorized = []) := by
  have hcat : ∀ p, catOf ci p = "UNCATEGORIZED" ↔ List.lookup p ci = none := by
    intro p
    constructor
    · intro hc
      cases hl : List.lookup p ci with
      | none => rfl
      | some v =>
        exfalso
        rw [catOf, hl] at hc
        exact h (p, v) (lookup_mem hl) hc
    · intro hl
      simp [catOf, hl]
  have huncat : (pymain data ci).uncategorized =
      bFiles (calculate_category_changes ci data) "UNCATEGORIZED" := rfl
  have hmm : ∀ p : String,
      (p ∈ (pymain data ci).uncategorized.map (fun r => r.1)) ↔
        p ∈ data.map (fun r => r.1) ∧ List.lookup p ci = none := by
    intro p
    rw [huncat, List.mem_map]
    constructor
    · rintro ⟨r, hrm, rfl⟩
      obtain ⟨hrd, hrc⟩ := (mem_bFiles_calc ci data _ r).mp hrm
      exact ⟨List.mem_map.mpr ⟨r, hrd, rfl⟩, (hcat r.1).mp hrc⟩
    · rintro ⟨hp, hn⟩
      obtain ⟨r, hrd, rfl⟩ := List.mem_map.mp hp
      exact ⟨r, (mem_bFiles_calc ci data _ r).mpr ⟨hrd, (hcat r.1).mpr hn⟩, rfl⟩
  have hmissing : ∀ p : String, p ∈ (pymain data ci).missingFiles ↔
      p ∈ data.map (fun r => r.1) ∧ List.lookup p ci = none := by
    intro p
    rw [show (pymain data ci).missingFiles = pySortedStr (missingSet data ci)
      from rfl, mem_pySortedStr, mem_missingSet]
  refine ⟨fun p => (hmissing p).trans (hmm p).symm, ?_⟩
  have hat : (pymain data ci).allTagged = true ↔ missingSet data ci = [] := by
    rw [show (pymain data ci).allTagged = (missingSet data ci).isEmpty
      from rfl, List.isEmpty_iff]
  rw [hat]
  constructor
  · intro he
    refine List.eq_nil_iff_forall_not_mem.mpr (fun r hrm => ?_)
    have h1 := (hmm r.1).mp (List.mem_map.mpr ⟨r, hrm, rfl⟩)
    have h2 : r.1 ∈ missingSet data ci := (mem_missingSet data ci r.1).mpr h1
    rw [he] at h2
    cases h2
  · intro hu
    refine List.eq_nil_iff_forall_not_mem.mpr (fun p hpm => ?_)
    have h1 := (mem_missingSet data ci p).mp hpm
    have h2 := (hmm p).mpr h1
    rw [hu] at h2
    simp at h2

/-- C10 witness: concrete instance with no sentinel collision. -/
theorem c10_equivalence_witness :
    (∀ kv ∈ ([("a.go", "Core")] : CategoryIndex), kv.2 ≠ "UNCATEGORIZED") ∧
      (("b.go" : String) ∈
          (pymain [("a.go", 1, 0), ("b.go", 2, 0)]
            [("a.go", "Core")]).missingFiles ↔
        ("b.go" : String) ∈
          (pymain [("a.go", 1, 0), ("b.go", 2, 0)]
            [("a.go", "Core")]).uncategorized.map (fun r => r.1)) ∧
      ((pymain [("a.go", 1, 0), ("b.go", 2, 0)]
          [("a.go", "Core")]).allTagged = true ↔
        (pymain [("a.go", 1, 0), ("b.go", 2, 0)]
          [("a.go", "Core")]).uncategorized = []) :=
  ⟨by decide,
    (c10_equivalence [("a.go", 1, 0), ("b.go", 2, 0)] [("a.go", "Core")]
      (by decide)).1 "b.go",
    (c10_equivalence [("a.go", 1, 0), ("b.go", 2, 0)] [("a.go", "Core")]
      (by decide)).2⟩
